import Mathlib

/-!
Shallow embedding of `bmwcd/bmwcdapi.py` (class `ConnectedDrive`).

Modelling conventions:
* Machine time (`time.time()`) is passed explicitly as a `Nat` argument `now`;
  where the source reads the clock twice in one method (`update`, lines 128 and
  155) the two reads are two parameters.
* The HTTP transport is an explicit oracle argument: the login `POST` of
  `generate_credentials` is an `Option AuthResponse` (`none` models a network
  fault, in which case `requests.post` raises), a data `GET` is a
  `GetResponse α` whose `body` is the already JSON-decoded payload (JSON
  decoding and sub-field selection, lines 246-248, are external collaborators
  per the source's design), and the status-poll `GET`s of `execute_service` are
  a function `Nat → String` giving the parsed `remoteServiceStatus` text of
  poll number `i` (XML parsing, lines 371-372, is likewise external).
* Python exceptions are modelled with `Except PyError`; stateful methods return
  the post-state explicitly.  On every modelled error path of
  `generate_credentials` the raise happens before any `self` mutation, so the
  pre-state is returned unchanged alongside the error.
* Display-only state (`printall`, `token_expires_date_time`,
  `ignore_interval`, the `RLock`, logging, `print`) is omitted; `cars_data` is
  first created inside `update` (line 131) and its initial value `[]` stands
  for the not-yet-created attribute.
-/

namespace Bmwcd

/-- Python runtime exceptions the embedded code can raise. -/
inductive PyError where
  | keyError
  | attributeError
  | connectionError
  | typeError
deriving DecidableEq

/-- A Python dict with string keys and values, as used for a vehicle's
attribute map (`attributesMap` payloads and the derived snapshot entries). -/
abbrev AttrMap := List (String × String)

/-- Python dict assignment `d[k] = v`: replace the value at `k` if present,
otherwise add the pair. -/
def setKey (m : AttrMap) (k v : String) : AttrMap :=
  if (m.lookup k).isSome then m.map (fun p => if p.1 = k then (k, v) else p)
  else m ++ [(k, v)]

/-- Module constant `USERNAME` (line 59). -/
def USERNAME : Option String := none

/-- Module constant `PASSWORD` (line 60). -/
def PASSWORD : Option String := none

/-- Module constant `URL` (line 63). -/
def URL : Option String := none

/-- Module constant `UPDATE_INTERVAL` (line 64). -/
def UPDATE_INTERVAL : Nat := 600

/-- Module constant `TIMEOUT` (line 68).  Defined in the source but never
passed to any transport call. -/
def TIMEOUT : Nat := 10

/-- Module constant `AUTH_API` (line 70). -/
def AUTH_API : String := "https://customer.bmwgroup.com/gcdm/oauth/authenticate"

/-- One entry of the decoded vehicle list (`/api/me/vehicles/v2`); the fields
`update` and `get_cars` read. -/
structure Car where
  vin : String
  brand : String
  modelName : String
deriving DecidableEq

/-- The mutable state of a `ConnectedDrive` instance (`__init__`,
lines 89-117).  `cars` is either the decoded vehicle list or, after a failed
fetch, the numeric status code that `request_car_data` returned and `get_cars`
stored (line 256). -/
structure CDState where
  bmw_username : Option String
  bmw_password : Option String
  bmw_url : String
  bmw_url_me : String
  update_interval : Nat
  is_valid_session : Bool
  last_update_time : Nat
  is_updated : Bool
  accesstoken : Option String
  token_expires : Nat
  utc_offset_min : Int
  cars : List Car ⊕ Nat
  cars_data : List AttrMap
  bmw_vin : Option String
deriving DecidableEq

/-- `ConnectedDrive.__init__` (lines 89-117), up to but excluding the network
calls of lines 119-122.  Line 104, `max(update_interval, 120)`, is commented
out in the source; line 105 assigns the literal `120` regardless of the
`update_interval` argument. -/
def ConnectedDrive_init_state (username password url : Option String)
    (update_interval : Nat) (utc_offset_min : Int) : CDState :=
  { bmw_username := username
    bmw_password := password
    bmw_url :=
      match url with
      | none => "https://www.bmw-connecteddrive.nl/api/vehicle"
      | some u =>
        if "https://".isPrefixOf u then u ++ "/api/vehicle"
        else "https://" ++ u ++ "/api/vehicle"
    bmw_url_me :=
      match url with
      | none => "https://www.bmw-connecteddrive.nl/api/me"
      | some u =>
        if "https://".isPrefixOf u then u ++ "/api/me"
        else "https://" ++ u ++ "/api/me"
    update_interval := 120
    is_valid_session := false
    last_update_time := 0
    is_updated := false
    accesstoken := none
    token_expires := 0
    utc_offset_min := utc_offset_min
    cars := Sum.inl []
    cars_data := []
    bmw_vin := none }

/-- `needle in hay` on Python strings: substring containment. -/
def containsSub (needle hay : String) : Bool :=
  (List.range (hay.length + 1)).any (fun i => needle.toList.isPrefixOf (hay.toList.drop i))

/-- Drop characters up to and including the first occurrence of the marker
`m`; `none` when `m` does not occur. -/
def findAfter (m : List Char) : List Char → Option (List Char)
  | [] => if m.isEmpty then some [] else none
  | c :: cs =>
    if m.isPrefixOf (c :: cs) then some (List.drop m.length (c :: cs))
    else findAfter m cs

/-- A character of the regex classes `\w`/`[\w\d]`. -/
def isWordChar (c : Char) : Bool :=
  c.isAlphanum || c = '_'

/-- Decimal digits to a number, for the regex group `(\d+)` of `expires_in`. -/
def digitsToNat (ds : List Char) : Nat :=
  ds.foldl (fun n c => 10 * n + (c.toNat - 48)) 0

/-- The fixed-grammar pattern match of line 210,
`.*access_token=([\w\d]+).*token_type=(\w+).*expires_in=(\d+).*`, on the
`Location` payload: find `access_token=` and take the maximal nonempty run of
word characters, then after it `token_type=` with a nonempty `\w+` group, then
`expires_in=` with a nonempty digit group.  (Each marker is matched at its
first occurrence; the vendor payloads carry each marker once, where this
coincides with the greedy regex.)  `none` models `re.match` returning `None`,
on which line 212 raises `AttributeError`. -/
def parse_token_payload (payload : String) : Option (String × String × Nat) :=
  match findAfter "access_token=".toList payload.toList with
  | none => none
  | some r1 =>
    let tok := r1.takeWhile isWordChar
    if tok.isEmpty then none else
    match findAfter "token_type=".toList (r1.drop tok.length) with
    | none => none
    | some r2 =>
      let ty := r2.takeWhile isWordChar
      if ty.isEmpty then none else
      match findAfter "expires_in=".toList (r2.drop ty.length) with
      | none => none
      | some r3 =>
        let ds := r3.takeWhile Char.isDigit
        if ds.isEmpty then none else
        some (String.mk tok, String.mk ty, digitsToNat ds)

/-- The auth endpoint's answer to the login `POST` of line 200: the status
code and the `Location` header when present (`headers['Location']` on a
response without one raises `KeyError`, line 206). -/
structure AuthResponse where
  status : Nat
  location : Option String
deriving DecidableEq

/-- `generate_credentials` (lines 182-218).  `resp = none` models a network
fault, on which `requests.post` itself raises (the method has no handler).
On a payload carrying `error=access_denied` the session is marked invalid
(line 208); otherwise the token pattern is extracted and, on success, the
token, its expiry `now + expires_in` (line 215) and session validity are
stored.  Exactly one transport call is made per invocation (the single `POST`
of line 200); there is no retry.  Every error is raised before any `self`
mutation, so the caller's state is unchanged on error. -/
def generate_credentials (resp : Option AuthResponse) (now : Nat) (s : CDState) :
    Except PyError CDState :=
  match resp with
  | none => Except.error PyError.connectionError
  | some r =>
    match r.location with
    | none => Except.error PyError.keyError
    | some payload =>
      if containsSub "error=access_denied" payload then
        Except.ok { s with is_valid_session := false }
      else
        match parse_token_payload payload with
        | none => Except.error PyError.attributeError
        | some (tok, _token_type, expires_in) =>
          Except.ok { s with
            accesstoken := some tok
            token_expires := now + expires_in
            is_valid_session := true }

/-- `token_valid` (lines 171-180): when `now >= token_expires` call
`generate_credentials` (one login `POST`), otherwise do nothing.  The second
component counts the network calls performed (0 or 1). -/
def token_valid (resp : Option AuthResponse) (now : Nat) (s : CDState) :
    Except PyError (CDState × Nat) :=
  if s.token_expires ≤ now then
    (generate_credentials resp now s).map (fun s2 => (s2, 1))
  else
    Except.ok (s, 0)

/-- The keyword arguments a call site passes to the `requests` transport.
`timeoutArg = none` means no `timeout=` keyword was passed (the `requests`
default: wait indefinitely). -/
structure CallArgs where
  timeoutArg : Option Nat
  allowRedirects : Bool
deriving DecidableEq

/-- Arguments of the login `POST` (`requests.post`, line 200):
`allow_redirects=False`, no `timeout` keyword. -/
def loginPostArgs : CallArgs :=
  { timeoutArg := none, allowRedirects := false }

/-- Arguments of the data `GET` of `request_car_data` (`requests.get`,
lines 239-241): `allow_redirects=True`, no `timeout` keyword (the source's
own `###Timeout` comment marks the spot). -/
def dataGetArgs : CallArgs :=
  { timeoutArg := none, allowRedirects := true }

/-- Arguments of the command-submission `POST` of `execute_service`
(`requests.post`, lines 357-359): `allow_redirects=True`, no `timeout`. -/
def commandPostArgs : CallArgs :=
  { timeoutArg := none, allowRedirects := true }

/-- Arguments of the status-poll `GET` of `execute_service` (`requests.get`,
lines 367-369): `allow_redirects=True`, no `timeout`. -/
def statusPollArgs : CallArgs :=
  { timeoutArg := none, allowRedirects := true }

/-- `'{}'.format(x)` on an optional string; Python renders `None` as
`"None"`. -/
def optStr : Option String → String
  | none => "None"
  | some v => v

/-- The outgoing request `request_car_data` issues: the URL, the access token
placed in the `Authorization: Bearer` header, and the transport arguments. -/
structure DataRequest where
  url : String
  authToken : Option String
  args : CallArgs
deriving DecidableEq

/-- The transport's answer to a data `GET`: status code and, when the caller
reads it, the JSON-decoded (and sub-field-selected) body of type `α`. -/
structure GetResponse (α : Type) where
  status : Nat
  body : α

/-- URL construction of `request_car_data` (lines 232-237). -/
def requestUrl (s : CDState) (data_type : String) : String :=
  if data_type = "dynamic" then
    s.bmw_url ++ "/" ++ data_type ++ "/v1/" ++ optStr s.bmw_vin
      ++ "?offset=" ++ toString s.utc_offset_min
  else if data_type = "get_cars" then
    s.bmw_url_me ++ "/vehicles/v2"
  else
    s.bmw_url ++ "/" ++ data_type ++ "/v1/" ++ optStr s.bmw_vin

/-- `request_car_data` (lines 220-252).  Source order: the headers dict —
including `Authorization: Bearer + self.accesstoken` — is built FIRST
(lines 222-226, raising `TypeError` when the token is `None`), THEN
`token_valid` runs (line 228, possibly replacing the stored token), then
`self.bmw_vin` is set (lines 229-230), the URL is built and the `GET` issued
with those earlier headers.  Status 200 returns the decoded body
(`Sum.inl`), any other status returns the numeric code (`Sum.inr`,
line 252).  The returned `DataRequest` records what was sent. -/
def request_car_data (α : Type) (loginResp : Option AuthResponse) (now : Nat)
    (getResp : GetResponse α) (s : CDState) (data_type : String)
    (vin : Option String) :
    CDState × Except PyError (DataRequest × (α ⊕ Nat)) :=
  match s.accesstoken with
  | none => (s, Except.error PyError.typeError)
  | some tok =>
    match token_valid loginResp now s with
    | Except.error e => (s, Except.error e)
    | Except.ok (s1, _logins) =>
      let s2 :=
        match vin with
        | some v => { s1 with bmw_vin := some v }
        | none => s1
      let req : DataRequest :=
        { url := requestUrl s2 data_type, authToken := some tok, args := dataGetArgs }
      if getResp.status = 200 then
        (s2, Except.ok (req, Sum.inl getResp.body))
      else
        (s2, Except.ok (req, Sum.inr getResp.status))

/-- `get_cars` (lines 254-272): fetch the vehicle list and store the result in
`self.cars` unconditionally, then iterate `for car in self.cars`.  When the
fetch failed, `request_car_data` returned the status code (an `int`), the
assignment stores it, and the `for` loop raises `TypeError` (an `int` is not
iterable). -/
def get_cars (loginResp : Option AuthResponse) (now : Nat)
    (getResp : GetResponse (List Car)) (s : CDState) :
    CDState × Except PyError (List Car) :=
  match request_car_data (List Car) loginResp now getResp s "get_cars" none with
  | (s1, Except.error e) => (s1, Except.error e)
  | (s1, Except.ok (_req, Sum.inl cars)) =>
    ({ s1 with cars := Sum.inl cars }, Except.ok cars)
  | (s1, Except.ok (_req, Sum.inr code)) =>
    ({ s1 with cars := Sum.inr code }, Except.error PyError.typeError)

/-- `get_car_data` (lines 274-276): `request_car_data('dynamic',
'attributesMap', vin)`; the result is either an attribute map or a status
code. -/
def get_car_data (loginResp : Option AuthResponse) (now : Nat)
    (getResp : GetResponse AttrMap) (s : CDState) (vin : String) :
    CDState × Except PyError (AttrMap ⊕ Nat) :=
  match request_car_data AttrMap loginResp now getResp s "dynamic" (some vin) with
  | (s1, Except.error e) => (s1, Except.error e)
  | (s1, Except.ok (_req, r)) => (s1, Except.ok r)

/-- The powertrain classification of `update` (lines 143-149): with a
`charging_status` key present, `remaining_fuel == '0'` gives `electric` and
any other value `hybrid`; without it, `fuel`.  `none` models the `KeyError`
of line 144 when `charging_status` is present but `remaining_fuel` absent. -/
def classify_type_of_car (car_data : AttrMap) : Option String :=
  if (car_data.lookup "charging_status").isSome then
    match car_data.lookup "remaining_fuel" with
    | none => none
    | some v => some (if v = "0" then "electric" else "hybrid")
  else some "fuel"

/-- The per-car body of `update`'s loop after a successful fetch
(lines 141-150): add `vin` and `car_name` (`'{} {}'.format(brand,
modelName)`), classify, add `type_of_car`.  `none` propagates the `KeyError`
of the classification. -/
def processCar (car : Car) (car_data : AttrMap) : Option AttrMap :=
  let m1 := setKey car_data "vin" car.vin
  let m2 := setKey m1 "car_name" (car.brand ++ " " ++ car.modelName)
  (classify_type_of_car m2).map (fun t => setKey m2 "type_of_car" t)

/-- The `for car in self.cars` loop of `update` (lines 132-153), with
`fetch` standing for `self.get_car_data(vin)` (a map on success, the numeric
status code on failure, per line 136).  `Sum.inl` is the fully built list on
loop completion; `Sum.inr` is the accumulated partial list at the moment a
fetch returned an `int` and the method returned `None` (line 139).  The `Nat`
counts the fetch calls made. -/
def runCars (fetch : String → AttrMap ⊕ Nat) :
    List Car → List AttrMap → Except PyError ((List AttrMap ⊕ List AttrMap) × Nat)
  | [], acc => Except.ok (Sum.inl acc, 0)
  | car :: rest, acc =>
    match fetch car.vin with
    | Sum.inr _code => Except.ok (Sum.inr acc, 1)
    | Sum.inl car_data =>
      match processCar car car_data with
      | none => Except.error PyError.keyError
      | some m2 =>
        match runCars fetch rest (acc ++ [m2]) with
        | Except.error e => Except.error e
        | Except.ok (r, n) => Except.ok (r, n + 1)

/-- `update` (lines 124-169).  `now` is the `time.time()` of line 128 and
`finishTime` that of line 155.  Gate: only when
`now - last_update_time > update_interval` does the method fetch; otherwise
it sets `is_updated = False` and returns `None` without touching the network.
On a fetch failure mid-loop the method returns `None` (line 139), leaving
`last_update_time` and `is_updated` as they were but with `cars_data` holding
the partial list built so far.  On full success `cars_data` holds the full
list, `last_update_time := finishTime`, `is_updated := True`, and the list is
returned.  The result's `Option (List AttrMap)` is the Python return value
(`None` or the list); the `Nat` counts fetch calls. -/
def update (fetch : String → AttrMap ⊕ Nat) (now finishTime : Nat) (s : CDState) :
    Except PyError (CDState × Option (List AttrMap) × Nat) :=
  if s.update_interval < now - s.last_update_time then
    match s.cars with
    | Sum.inr _ => Except.error PyError.typeError
    | Sum.inl cars =>
      match runCars fetch cars [] with
      | Except.error e => Except.error e
      | Except.ok (Sum.inr pdata, n) =>
        Except.ok ({ s with cars_data := pdata }, none, n)
      | Except.ok (Sum.inl fullData, n) =>
        Except.ok
          ({ s with cars_data := fullData, last_update_time := finishTime, is_updated := true },
           some fullData, n)
  else
    Except.ok ({ s with is_updated := false }, none, 0)

/-- The `service_codes` dict of `execute_service` (lines 337-343). -/
def service_codes : List (String × String) :=
  [("climate", "RCN"), ("lock", "RDL"), ("unlock", "RDU"),
   ("light", "RLF"), ("horn", "RHB")]

/-- The `for i in range(max_retries)` loop of `execute_service`
(lines 365-376): each iteration sleeps, polls once (`poll start` is the
parsed `remoteServiceStatus` of that attempt) and breaks on `EXECUTED`.
Returns the final `remote_service_status` (initially `None`, line 353) and
the number of polls issued. -/
def pollLoop (poll : Nat → String) : Nat → Nat → Option String → Option String × Nat
  | _start, 0, last => (last, 0)
  | start, fuel + 1, _last =>
    let st := poll start
    if st = "EXECUTED" then (some st, 1)
    else
      let r := pollLoop poll (start + 1) fuel (some st)
      (r.1, r.2 + 1)

/-- `execute_service` (lines 330-382).  Source order: `token_valid`
(line 332), constants `max_retries = 9` and `interval = 10`, the headers dict
built from the (possibly refreshed) token (lines 345-349, `TypeError` on a
`None` token), the `service_codes` lookup (line 352, `KeyError` on an unknown
service), the submission `POST` (`postStatus` is its status code); a non-200
acknowledgement returns `False` with zero polls (lines 361-363); otherwise
the poll loop runs and the method returns `True` exactly when the final
status is `EXECUTED` (lines 378-382).  The `Nat` counts status polls. -/
def execute_service (service : String) (loginResp : Option AuthResponse)
    (now : Nat) (postStatus : Nat) (poll : Nat → String) (s : CDState) :
    CDState × Except PyError (Bool × Nat) :=
  match token_valid loginResp now s with
  | Except.error e => (s, Except.error e)
  | Except.ok (s1, _logins) =>
    match s1.accesstoken with
    | none => (s1, Except.error PyError.typeError)
    | some _tok =>
      match service_codes.lookup service with
      | none => (s1, Except.error PyError.keyError)
      | some _command =>
        if postStatus ≠ 200 then (s1, Except.ok (false, 0))
        else
          let r := pollLoop poll 0 9 none
          if r.1 = some "EXECUTED" then (s1, Except.ok (true, r.2))
          else (s1, Except.ok (false, r.2))

/-! ### Concrete instance states used by the example inputs below -/

/-- A concrete instance state: freshly constructed, then holding a valid
token `tok0` that expires at time 1000. -/
def baseState : CDState :=
  { ConnectedDrive_init_state (some "user@example.com") (some "pw") none 600 (-60) with
    accesstoken := some "tok0", token_expires := 1000, is_valid_session := true }

/-! ### Helper lemmas -/

/-- Within validity (`now < token_expires`), `token_valid` is a no-op: no
login, no state change, zero network calls. -/
theorem token_valid_fresh (resp : Option AuthResponse) (now : Nat) (s : CDState)
    (h : now < s.token_expires) : token_valid resp now s = Except.ok (s, 0) := by
  unfold token_valid
  rw [if_neg (Nat.not_le.mpr h)]

/-! ### Claims -/

/-- C9: whatever value the `update_interval` constructor argument has (and
whatever the module default `UPDATE_INTERVAL = 600` is), the constructed
state's `update_interval` field is the literal 120 — the argument is ignored
(line 104 is commented out, line 105 assigns 120), so the polling gate always
uses a 120-second minimum interval. -/
theorem init_update_interval_always_120 (username password url : Option String)
    (ui : Nat) (off : Int) :
    (ConnectedDrive_init_state username password url ui off).update_interval = 120 ∧
      UPDATE_INTERVAL = 600 :=
  ⟨rfl, rfl⟩

/-- C3: when `now - last_update_time ≤ update_interval` the gate is closed:
`update` returns `None`, sets `is_updated := false`, performs zero fetches,
and leaves `last_update_time`, `cars_data` and every other field unchanged. -/
theorem update_gate_closed_noop (fetch : String → AttrMap ⊕ Nat)
    (now finishTime : Nat) (s : CDState)
    (h : now - s.last_update_time ≤ s.update_interval) :
    update fetch now finishTime s =
      Except.ok ({ s with is_updated := false }, none, 0) := by
  unfold update
  rw [if_neg (Nat.not_lt.mpr h)]

/-- C3 witness: a concrete closed-gate cycle (time 100, last update 0,
interval 120). -/
theorem update_gate_closed_noop_witness :
    update (fun _ => Sum.inr 500) 100 100 baseState =
      Except.ok ({ baseState with is_updated := false }, none, 0) :=
  update_gate_closed_noop (fun _ => Sum.inr 500) 100 100 baseState (by decide)

/-- C4: the powertrain classification of `update` (lines 143-149): with
`charging_status` present and `remaining_fuel = "0"` the derived type is
`electric`; present with any other `remaining_fuel` value, `hybrid`; with
`charging_status` absent, `fuel`. -/
theorem classify_type_of_car_cases (m : AttrMap) :
    ((m.lookup "charging_status").isSome →
      (m.lookup "remaining_fuel" = some "0" →
        classify_type_of_car m = some "electric") ∧
      (∀ v, m.lookup "remaining_fuel" = some v → v ≠ "0" →
        classify_type_of_car m = some "hybrid")) ∧
    (m.lookup "charging_status" = none → classify_type_of_car m = some "fuel") := by
  constructor
  · intro hcs
    constructor
    · intro hrf
      simp [classify_type_of_car, hcs, hrf]
    · intro v hrf hv
      simp [classify_type_of_car, hcs, hrf, hv]
  · intro hcs
    simp [classify_type_of_car, hcs]

/-- C4 witness: one concrete map per branch. -/
theorem classify_type_of_car_cases_witness :
    classify_type_of_car [("charging_status", "CHARGING"), ("remaining_fuel", "0")] =
      some "electric" ∧
    classify_type_of_car [("charging_status", "CHARGING"), ("remaining_fuel", "40")] =
      some "hybrid" ∧
    classify_type_of_car [("remaining_fuel", "40")] = some "fuel" :=
  ⟨((classify_type_of_car_cases
      [("charging_status", "CHARGING"), ("remaining_fuel", "0")]).1
      (by decide)).1 (by decide),
   ((classify_type_of_car_cases
      [("charging_status", "CHARGING"), ("remaining_fuel", "40")]).1
      (by decide)).2 "40" (by decide) (by decide),
   (classify_type_of_car_cases [("remaining_fuel", "40")]).2 (by decide)⟩

/-- C5: `token_valid` performs the login (`generate_credentials`, one network
call) only when `now ≥ token_expires`.  Within validity it is a no-op with
zero network calls — in particular two consecutive calls within validity both
leave the token, its expiry and the session validity unchanged, the second
(like the first) issuing zero network calls — and at/after expiry it performs
exactly the single login. -/
theorem token_valid_lazy_refresh (resp1 resp2 : Option AuthResponse)
    (now1 now2 : Nat) (s : CDState)
    (h1 : now1 < s.token_expires) (h2 : now2 < s.token_expires) :
    token_valid resp1 now1 s = Except.ok (s, 0) ∧
    token_valid resp2 now2 s = Except.ok (s, 0) ∧
    (∀ resp now3, s.token_expires ≤ now3 →
      token_valid resp now3 s =
        (generate_credentials resp now3 s).map (fun s2 => (s2, 1))) := by
  refine ⟨token_valid_fresh resp1 now1 s h1, token_valid_fresh resp2 now2 s h2, ?_⟩
  intro resp now3 h3
  unfold token_valid
  rw [if_pos h3]

/-- C5 witness: two calls at times 500 and 600 on a token valid until 1000. -/
theorem token_valid_lazy_refresh_witness :
    token_valid none 500 baseState = Except.ok (baseState, 0) ∧
    token_valid none 600 baseState = Except.ok (baseState, 0) :=
  ⟨(token_valid_lazy_refresh none none 500 600 baseState (by decide) (by decide)).1,
   (token_valid_lazy_refresh none none 500 600 baseState (by decide) (by decide)).2.1⟩

/-- First registered car of the two-car scenario. -/
def carA : Car := { vin := "VINA", brand := "BMW", modelName := "i3" }

/-- Second registered car of the two-car scenario. -/
def carB : Car := { vin := "VINB", brand := "BMW", modelName := "320d" }

/-- Fetch oracle for the two-car scenario: car A yields a fuel-type attribute
map, car B's fetch fails with status 500. -/
def fetchAB : String → AttrMap ⊕ Nat :=
  fun v => if v = "VINA" then Sum.inl [("remaining_fuel", "40")] else Sum.inr 500

/-- Instance state with cars A and B registered. -/
def stateAB : CDState := { baseState with cars := Sum.inl [carA, carB] }

/-- Car A's attribute map after `update`'s loop processed it. -/
def procA : AttrMap :=
  [("remaining_fuel", "40"), ("vin", "VINA"), ("car_name", "BMW i3"),
   ("type_of_car", "fuel")]

/-- C2 counterexample: two cars, gate open at time 1000; car A's fetch
succeeds, car B's returns status 500.  `update` does return `None` (no
snapshot list as return value), but the stored `cars_data` holds one
snapshot, not zero — the partial list is produced as the stored state. -/
theorem update_failure_counterexample :
    (update fetchAB 1000 1000 stateAB).map
      (fun r => (r.2.1, r.1.cars_data.length)) = Except.ok (none, 1) := by
  rfl

/-- An initial segment of the car list whose fetches succeed and process to
the listed snapshots, followed by a car whose fetch returns a status code
(the shape of an `update` cycle that aborts mid-loop). -/
inductive PrefixThenFail (fetch : String → AttrMap ⊕ Nat) :
    List Car → List AttrMap → Prop
  | head (car : Car) (rest : List Car) (code : Nat) :
      fetch car.vin = Sum.inr code → PrefixThenFail fetch (car :: rest) []
  | step (car : Car) (m m2 : AttrMap) (rest : List Car) (ms : List AttrMap) :
      fetch car.vin = Sum.inl m → processCar car m = some m2 →
      PrefixThenFail fetch rest ms → PrefixThenFail fetch (car :: rest) (m2 :: ms)

/-- Helper: on a prefix-then-fail car list, the loop stops at the failing
fetch with the processed prefix accumulated and one fetch call per car
touched. -/
theorem runCars_prefix_fail (fetch : String → AttrMap ⊕ Nat)
    (cars : List Car) (ms : List AttrMap) (h : PrefixThenFail fetch cars ms) :
    ∀ acc, runCars fetch cars acc = Except.ok (Sum.inr (acc ++ ms), ms.length + 1) := by
  induction h with
  | head car rest code hf =>
    intro acc
    simp [runCars, hf]
  | step car m m2 rest ms hf hp _htail ih =>
    intro acc
    simp [runCars, hf, hp, ih (acc ++ [m2])]

/-- C2 amended: when the gate is open and some car's fetch fails (all earlier
cars fetching and processing successfully), `update` aborts the cycle and
returns `None` — no snapshot list is returned, and `last_update_time` and
`is_updated` keep their previous values — but the stored `cars_data` is the
partial snapshot list of the cars processed before the failure, not an empty
one; the failing fetch is the last of the `ms.length + 1` fetch calls
issued. -/
theorem update_aborts_with_partial_cars_data (fetch : String → AttrMap ⊕ Nat)
    (now finishTime : Nat) (s : CDState) (cars : List Car) (ms : List AttrMap)
    (hcars : s.cars = Sum.inl cars)
    (hgate : s.update_interval < now - s.last_update_time)
    (hfail : PrefixThenFail fetch cars ms) :
    update fetch now finishTime s =
      Except.ok ({ s with cars_data := ms }, none, ms.length + 1) := by
  unfold update
  rw [if_pos hgate, hcars]
  simp only [runCars_prefix_fail fetch cars ms hfail [], List.nil_append]

/-- C2 amended witness: cars A and B at time 1000; A is processed, B's fetch
fails, `update` returns `None` with `cars_data` holding A's snapshot after
two fetch calls. -/
theorem update_aborts_with_partial_cars_data_witness :
    update fetchAB 1000 1000 stateAB =
      Except.ok ({ stateAB with cars_data := [procA] }, none, 2) :=
  update_aborts_with_partial_cars_data fetchAB 1000 1000 stateAB [carA, carB] [procA]
    (by rfl) (by decide)
    (PrefixThenFail.step carA [("remaining_fuel", "40")] procA [carB] []
      (by rfl) (by rfl)
      (PrefixThenFail.head carB [] 500 (by rfl)))

/-- Login response whose `Location` payload carries a fresh token `newtok`
valid for 3600 seconds. -/
def authNewTok : Option AuthResponse :=
  some { status := 302,
         location := some "xx#access_token=newtok&token_type=Bearer&expires_in=3600" }

/-- Instance state holding the stale token `oldtok`, expired at time 50. -/
def staleState : CDState :=
  { baseState with accesstoken := some "oldtok", token_expires := 50 }

/-- A 200 data response with an empty attribute map. -/
def okAttrResponse : GetResponse AttrMap := { status := 200, body := [] }

/-- C1: refuted on the code — in `request_car_data` the `Authorization`
header is built (lines 222-226) before `token_valid` runs (line 228), so when
the stored token is expired and the check refreshes it, the request goes out
with the stale pre-refresh token: at time 100, with `oldtok` expired at 50
and the login delivering `newtok`, the issued request's header token is
`oldtok` while the post-call state already holds `newtok`. -/
theorem request_header_carries_stale_token :
    ((request_car_data AttrMap authNewTok 100 okAttrResponse staleState
        "dynamic" (some "VINA")).1.accesstoken,
     (request_car_data AttrMap authNewTok 100 okAttrResponse staleState
        "dynamic" (some "VINA")).2.map (fun r => r.1.authToken)) =
      (some "newtok", Except.ok (some "oldtok")) := by
  rfl

/-- C8: refuted on the code — `TIMEOUT = 10` is defined (line 68) but never
used: none of the four transport call sites (login POST line 200, data GET
lines 239-241, command POST lines 357-359, status-poll GET lines 367-369)
passes a timeout argument, so every call waits with the `requests` default
(no bound) instead of the claimed 10 time units. -/
theorem transport_calls_pass_no_timeout :
    loginPostArgs.timeoutArg = none ∧ dataGetArgs.timeoutArg = none ∧
    commandPostArgs.timeoutArg = none ∧ statusPollArgs.timeoutArg = none ∧
    TIMEOUT = 10 :=
  ⟨rfl, rfl, rfl, rfl, rfl⟩

/-- C7 counterexample: on a non-redirect login response without a `Location`
header (status 400), `generate_credentials` does not return with an invalid
session — reading `headers['Location']` (line 206) raises an uncaught
`KeyError`. -/
theorem generate_credentials_raises_on_bad_response :
    generate_credentials (some { status := 400, location := none }) 0 baseState =
      Except.error PyError.keyError :=
  rfl

/-- C7 amended: `generate_credentials` never retries (it issues exactly one
transport call per invocation by construction) and never marks the session
valid on a failed login, but it does not always return cleanly: a network
fault propagates the transport's exception uncaught, and a response without a
`Location` header raises `KeyError`; only the access-denied redirect is
handled by marking the session invalid and returning. -/
theorem generate_credentials_failure_paths (now : Nat) (s : CDState) :
    generate_credentials none now s = Except.error PyError.connectionError ∧
    (∀ st : Nat,
      generate_credentials (some { status := st, location := none }) now s =
        Except.error PyError.keyError) ∧
    (∀ (st : Nat) (loc : String), containsSub "error=access_denied" loc = true →
      generate_credentials (some { status := st, location := some loc }) now s =
        Except.ok { s with is_valid_session := false }) := by
  refine ⟨rfl, fun st => rfl, fun st loc h => ?_⟩
  simp [generate_credentials, h]

/-- C7 amended witness: an access-denied redirect marks the session invalid
and returns. -/
theorem generate_credentials_failure_paths_witness :
    generate_credentials
      (some { status := 302, location := some "https://x?error=access_denied" })
      0 baseState = Except.ok { baseState with is_valid_session := false } :=
  (generate_credentials_failure_paths 0 baseState).2.2 302
    "https://x?error=access_denied" (by decide)

/-- Helper: when no poll in the window reads `EXECUTED`, the loop spends its
whole fuel and ends on the last polled status. -/
theorem pollLoop_exhaust (poll : Nat → String) :
    ∀ fuel, 0 < fuel → ∀ start last,
      (∀ j, j < fuel → poll (start + j) ≠ "EXECUTED") →
      pollLoop poll start fuel last = (some (poll (start + fuel - 1)), fuel) := by
  intro fuel
  induction fuel with
  | zero => intro h; exact absurd h (by omega)
  | succ f ih =>
    intro _ start last hne
    have h0 : poll start ≠ "EXECUTED" := by
      have := hne 0 (by omega)
      simpa using this
    rcases Nat.eq_zero_or_pos f with hf | hf
    · subst hf
      simp [pollLoop, h0]
    · have hrec := ih hf (start + 1) (some (poll start)) (fun j hj => by
        have := hne (j + 1) (by omega)
        have heq : start + 1 + j = start + (j + 1) := by omega
        rw [heq]; exact this)
      have harg : start + 1 + f - 1 = start + (f + 1) - 1 := by omega
      rw [harg] at hrec
      simp [pollLoop, h0, hrec]

/-- Helper: when poll number `k + 1` is the first to read `EXECUTED` and it
lies within the fuel window, the loop stops there after exactly `k + 1`
polls. -/
theorem pollLoop_first_executed (poll : Nat → String) :
    ∀ k fuel start last, k < fuel →
      (∀ j, j < k → poll (start + j) ≠ "EXECUTED") →
      poll (start + k) = "EXECUTED" →
      pollLoop poll start fuel last = (some "EXECUTED", k + 1) := by
  intro k
  induction k with
  | zero =>
    intro fuel start last hk _ hex
    cases fuel with
    | zero => exact absurd hk (by omega)
    | succ f =>
      have h0 : poll start = "EXECUTED" := by simpa using hex
      simp [pollLoop, h0]
  | succ k ih =>
    intro fuel start last hk hne hex
    cases fuel with
    | zero => exact absurd hk (by omega)
    | succ f =>
      have h0 : poll start ≠ "EXECUTED" := by
        have := hne 0 (by omega)
        simpa using this
      have hrec := ih f (start + 1) (some (poll start)) (by omega)
        (fun j hj => by
          have := hne (j + 1) (by omega)
          have heq : start + 1 + j = start + (j + 1) := by omega
          rw [heq]; exact this)
        (by
          have heq : start + 1 + k = start + (k + 1) := by omega
          rw [heq]; exact hex)
      simp [pollLoop, h0, hrec]

/-- C6: with a valid token and a known service: a submission not acknowledged
with status 200 returns `false` immediately with zero status polls; on a 200
acknowledgement, if the first `EXECUTED` status appears on poll `k + 1 ≤ 9`
the method returns `true` after exactly `k + 1` polls, and if none of the 9
polls reads `EXECUTED` it returns `false` after all 9. -/
theorem execute_service_poll_protocol (service code : String)
    (loginResp : Option AuthResponse) (now postStatus : Nat)
    (poll : Nat → String) (s : CDState) (tok : String)
    (hsvc : service_codes.lookup service = some code)
    (htok : s.accesstoken = some tok) (hfresh : now < s.token_expires) :
    (postStatus ≠ 200 →
      execute_service service loginResp now postStatus poll s =
        (s, Except.ok (false, 0))) ∧
    (postStatus = 200 →
      (∀ k, k < 9 → (∀ j, j < k → poll j ≠ "EXECUTED") → poll k = "EXECUTED" →
        execute_service service loginResp now postStatus poll s =
          (s, Except.ok (true, k + 1))) ∧
      ((∀ j, j < 9 → poll j ≠ "EXECUTED") →
        execute_service service loginResp now postStatus poll s =
          (s, Except.ok (false, 9)))) := by
  have htv := token_valid_fresh loginResp now s hfresh
  refine ⟨?_, ?_⟩
  · intro hpost
    simp [execute_service, htv, htok, hsvc, hpost]
  · intro hpost
    refine ⟨?_, ?_⟩
    · intro k hk hne hex
      have hp := pollLoop_first_executed poll k 9 0 none hk
        (fun j hj => by simpa using hne j hj) (by simpa using hex)
      simp [execute_service, htv, htok, hsvc, hpost, hp]
    · intro hne
      have hp := pollLoop_exhaust poll 9 (by omega) 0 none
        (fun j hj => by simpa using hne j hj)
      have h8 : poll 8 ≠ "EXECUTED" := hne 8 (by omega)
      simp [execute_service, htv, htok, hsvc, hpost, hp, h8]

/-- The status sequence of the end-to-end scenario: `PENDING`, `PENDING`,
then `EXECUTED`. -/
def pollPPE : Nat → String := fun n => if n < 2 then "PENDING" else "EXECUTED"

/-- C6 witness: `lock` submission acknowledged with 200; statuses `PENDING`,
`PENDING`, `EXECUTED` give `true` after exactly 3 polls. -/
theorem execute_service_poll_protocol_witness :
    execute_service "lock" none 500 200 pollPPE baseState =
      (baseState, Except.ok (true, 3)) :=
  ((execute_service_poll_protocol "lock" "RDL" none 500 200 pollPPE baseState "tok0"
      (by rfl) (by rfl) (by decide)).2 rfl).1 2 (by omega)
    (by intro j hj; interval_cases j <;> decide) (by decide)

/-- C10: when the vehicle-list fetch answers with a non-200 status,
`request_car_data` returns the numeric code, `get_cars` stores that integer
in `self.cars` unchanged (line 256), and the following `for car in
self.cars` (line 258) raises `TypeError` — the caller gets an uncaught
exception, not a fetch-failure result.  (Stated with a valid token, so the
call reaches the `GET`.) -/
theorem get_cars_stores_int_then_raises (loginResp : Option AuthResponse)
    (now : Nat) (resp : GetResponse (List Car)) (s : CDState) (tok : String)
    (htok : s.accesstoken = some tok) (hfresh : now < s.token_expires)
    (hst : resp.status ≠ 200) :
    get_cars loginResp now resp s =
      ({ s with cars := Sum.inr resp.status }, Except.error PyError.typeError) := by
  have htv := token_valid_fresh loginResp now s hfresh
  simp [get_cars, request_car_data, htok, htv, hst]

/-- A failed vehicle-list fetch: status 404. -/
def carsFail : GetResponse (List Car) := { status := 404, body := [] }

/-- C10 witness: a 404 vehicle-list fetch leaves the integer 404 in
`self.cars` and raises `TypeError`. -/
theorem get_cars_stores_int_then_raises_witness :
    get_cars none 500 carsFail baseState =
      ({ baseState with cars := Sum.inr 404 }, Except.error PyError.typeError) :=
  get_cars_stores_int_then_raises none 500 carsFail baseState "tok0"
    (by rfl) (by decide) (by decide)

end Bmwcd
